import Mathlib

/-!
Shallow embedding of the RoadTones user-study application
(`user_study_app.py`): the session-state data model and the wizard/step
engine handlers (quiz submission, study-part submissions, quiz restart,
content loading, view-state initialization) that the verified properties
are about.  Machine-external effects are made explicit: the Response Sink
(`save_response`) is a function from a global call counter to a success
flag, and the filesystem is a function from path to an existence flag.
-/

/-! ## Response Sink -/

/-- The Response Sink as seen by the engine: `save_response` returns `True`
on success and `False` on failure.  The sink is modelled as a stream of
outcomes indexed by a global call counter, so that a trace of several
submissions can be talked about. -/
abbrev Sink := Nat → Bool

/-- The per-question save loop of the part-1 "Submit Ratings" and part-3
"Submit Comparison" blocks: iterate the responses in insertion order, call
`save_response` once per question, and `break` at the first failure.
Returns the list of question ids actually sent to the sink, the
`all_saved` flag, and the next value of the call counter. -/
def saveLoopFrom (sink : Sink) (n : Nat) : List String → List String × Bool × Nat
  | [] => ([], true, n)
  | q :: qs =>
    if sink n then
      let r := saveLoopFrom sink (n + 1) qs
      (q :: r.1, r.2.1, r.2.2)
    else ([q], false, n + 1)

/-! ## Quiz submission (quiz page, "Submit Answer" block) -/

/-- Python set equality on the selected options,
`set(choice) == set(correct_answer)`, used for multi-select questions. -/
def listSetEq (a b : List String) : Bool :=
  a.all (fun x => b.contains x) && b.all (fun x => a.contains x)

/-- The validation of the quiz "Submit Answer" block: an empty selection
(`not choice`) is rejected with "Please select an option.", and for a
multi-select question a selection whose length differs from 2 is rejected
with "Please select exactly 2 options.".  A single-select radio choice is
encoded as a one-element list and no choice as the empty list. -/
def validQuizChoice (isMulti : Bool) (choice : List String) : Bool :=
  if choice.isEmpty then false
  else if isMulti && choice.length != 2 then false
  else true

/-- The slice of `st.session_state` read and written by the quiz
"Submit Answer" block. -/
structure QuizState where
  score : Nat
  lastChoice : List String
  isCorrect : Bool
  showFeedback : Bool
  currentPartIndex : Nat
  currentSampleIndex : Nat
  currentRatingQuestionIndex : Nat
deriving Repr, DecidableEq

/-- The quiz "Submit Answer" block: validate; on a valid submission record
the last choice, compute correctness (set equality when the answer key is
a list, equality otherwise), increment the score when correct, then call
`save_response`; the feedback flag is set only when the save reported
success.  Note that the choice, correctness and score writes happen
before the save is attempted. -/
def quizSubmit (isMulti : Bool) (choice correctAnswer : List String)
    (sinkOk : Bool) (st : QuizState) : QuizState :=
  if validQuizChoice isMulti choice then
    let isCorrect := if isMulti then listSetEq choice correctAnswer
                     else choice == correctAnswer
    let st1 : QuizState :=
      { st with lastChoice := choice, isCorrect := isCorrect,
                score := if isCorrect then st.score + 1 else st.score }
    if sinkOk then { st1 with showFeedback := true } else st1
  else st

/-! ## Quiz results page -/

/-- The constant `passing_score = 5` of the `quiz_results` page. -/
def passing_score : Nat := 5

/-- The pass/fail branch of the `quiz_results` page:
`st.session_state.score >= passing_score`. -/
def quizPassed (score : Nat) : Bool := decide (passing_score ≤ score)

/-- The status string shown on the `quiz_results` page: "Passed" offers the
"Proceed to User Study" transition, "Failed" offers "Take Quiz Again". -/
def quizResultsOutcome (score : Nat) : String :=
  if quizPassed score then "Passed" else "Failed"

/-! ## Quiz "Finish Quiz" vs "Next Question" labeling -/

/-- The `is_last_question` determination of the quiz feedback view:
Caption Quality parts additionally require the sub-question index to be at
its maximum. -/
def isLastQuestion (captionQuality : Bool)
    (partIndex numParts sampleIndex numSamples subIndex numSubs : Nat) : Bool :=
  let isLastPart := partIndex == numParts - 1
  let isLastSampleInPart := sampleIndex == numSamples - 1
  if captionQuality then
    isLastPart && isLastSampleInPart && (subIndex == numSubs - 1)
  else
    isLastPart && isLastSampleInPart

/-- The label of the advance button on the quiz feedback view,
`button_text = "Finish Quiz" if is_last_question else "Next Question"`. -/
def nextQuizButtonText (captionQuality : Bool)
    (partIndex numParts sampleIndex numSamples subIndex numSubs : Nat) : String :=
  if isLastQuestion captionQuality partIndex numParts sampleIndex numSamples subIndex numSubs
  then "Finish Quiz" else "Next Question"

/-! ## Demographics page -/

/-- The slice of session state touched by the demographics page: the
participant record, the page, and the form inputs the normal "Next" path
validates (consent checkbox, email text). -/
structure DemographicsState where
  email : String
  age : Nat
  gender : String
  page : String
  consentChecked : Bool
  emailInput : String
deriving Repr, DecidableEq

/-- The "DEBUG: Skip to Main Study" button handler on the demographics
page: set fixed participant values and jump straight to
`user_study_main`. -/
def debugSkipToMainStudy (s : DemographicsState) : DemographicsState :=
  { s with email := "debug@test.com", age := 25,
           gender := "Prefer not to say", page := "user_study_main" }

/-! ## Quiz session state and `restart_quiz` -/

/-- The quiz-phase slice of `st.session_state`, including the dynamically
keyed per-item entries: `timer_finished_quiz_{sample_id}`,
`view_state_{sample_id}` (its `step` field), the cached shuffled
comprehension options `view_state_{sample_id}_comp_options`, and the
one-way summary flags `view_state_{sample_id}_summary_typed`.  The keyed
entries are modelled as maps from the sample id; an absent key is `none`
(respectively `false` for the Boolean flags, matching
`st.session_state.get(key, False)`). -/
structure QuizSession where
  page : String
  currentPartIndex : Nat
  currentSampleIndex : Nat
  currentRatingQuestionIndex : Nat
  showFeedback : Bool
  score : Nat
  scoreSaved : Bool
  timerFinishedQuiz : String → Bool
  viewStateStep : String → Option Nat
  compOptions : String → Option (List String)
  summaryTyped : String → Bool

/-- The `restart_quiz` callback of the "Take Quiz Again" button: it writes
`page`, the three cursor indices, `show_feedback`, `score` and
`score_saved`, and nothing else. -/
def restart_quiz (s : QuizSession) : QuizSession :=
  { s with page := "quiz", currentPartIndex := 0, currentSampleIndex := 0,
           currentRatingQuestionIndex := 0, showFeedback := false,
           score := 0, scoreSaved := false }

/-- A session state as it stands on the `quiz_results` page after a failed
quiz run in which sample "q1" was completed: its watch timer has elapsed,
its summary has been revealed, and its shuffled comprehension options are
cached. -/
def failedQuizSession : QuizSession where
  page := "quiz_results"
  currentPartIndex := 3
  currentSampleIndex := 0
  currentRatingQuestionIndex := 0
  showFeedback := false
  score := 4
  scoreSaved := false
  timerFinishedQuiz := fun sid => sid == "q1"
  viewStateStep := fun _ => none
  compOptions := fun sid =>
    if sid == "q1" then some ["optA", "optB", "optC", "optD"] else none
  summaryTyped := fun sid => sid == "q1"

/-! ## Content loading (`load_data`) -/

/-- The `INTRO_VIDEO_PATH` constant. -/
def INTRO_VIDEO_PATH : String := "media/start_video_slower.mp4"

/-- The five required JSON content files checked by `load_data`:
instructions, quiz, study, questions and definitions. -/
def requiredFiles : List String :=
  ["instructions.json", "quiz_data.json", "study_data.json",
   "questions.json", "definitions.json"]

/-- Per-video display metadata as returned by `get_video_metadata`. -/
structure VideoMeta where
  orientation : String
  duration : Nat
deriving Repr, DecidableEq

/-- The fixed fallback metadata: landscape orientation, 10 seconds. -/
def defaultMeta : VideoMeta := ⟨"landscape", 10⟩

/-- A study or quiz item as far as `load_data` inspects it: an optional
`video_path` field. -/
structure ContentItem where
  videoPath : Option String
deriving Repr, DecidableEq

/-- The per-item metadata step of `load_data`: when the item has a
`video_path` and the file exists, probe it; otherwise default to
landscape / 10 s.  `fexists` is the filesystem (`os.path.exists`) and
`probe` the metadata reader (`get_video_metadata`). -/
def itemMeta (fexists : String → Bool) (probe : String → VideoMeta)
    (it : ContentItem) : VideoMeta :=
  match it.videoPath with
  | some p => if fexists p then probe p else defaultMeta
  | none => defaultMeta

/-- `load_data`: return `none` (the fatal error path) when one of the five
required content files or the intro video is absent; otherwise return the
loaded content with every study and quiz item annotated with its
(possibly defaulted) metadata. -/
def load_data (fexists : String → Bool) (probe : String → VideoMeta)
    (studyItems quizItems : List ContentItem) :
    Option (List VideoMeta × List VideoMeta) :=
  if requiredFiles.all fexists && fexists INTRO_VIDEO_PATH then
    some (studyItems.map (itemMeta fexists probe),
          quizItems.map (itemMeta fexists probe))
  else none

/-- A filesystem on which every path exists except one video file that is
referenced by a study item but by no required content file. -/
def fsMissingItemVideo : String → Bool :=
  fun p => !(p == "media/missing_video.mp4")

/-! ## Study part 1: caption rating submission -/

/-- The part-1 cursor and the current caption's view state: `viewState` is
the `step` of the `view_state_p1_{caption_id}` entry, `none` once the entry
has been popped. -/
structure Part1State where
  videoIndex : Nat
  captionIndex : Nat
  viewState : Option Nat
deriving Repr, DecidableEq

/-- The part-1 "Submit Ratings" block: when some slider was not yet
interacted with, warn and change nothing; otherwise save the five rating
answers one by one, breaking at the first sink failure.  Only when all
saves succeeded: advance the caption index, roll over to the next video
when the captions of the current one are exhausted, and pop the caption's
view state.  Returns the new state, the emitted question ids and the next
sink call counter. -/
def part1Submit (sink : Sink) (n : Nat) (qids : List String)
    (numCaptions : Nat) (allInteracted : Bool) (st : Part1State) :
    Part1State × List String × Nat :=
  if allInteracted then
    let r := saveLoopFrom sink n qids
    if r.2.1 then
      (if numCaptions ≤ st.captionIndex + 1 then
         { videoIndex := st.videoIndex + 1, captionIndex := 0, viewState := none }
       else
         { st with captionIndex := st.captionIndex + 1, viewState := none },
       r.1, r.2.2)
    else (st, r.1, r.2.2)
  else (st, [], n)

/-! ## Study part 2: intensity-change submission -/

/-- The part-2 cursor and the current item's view state
(`view_state_p2_{change_id}` step, `none` once popped). -/
structure Part2State where
  changeIndex : Nat
  viewState : Option Nat
deriving Repr, DecidableEq

/-- The part-2 "Submit Answers" block: when one of the two radio questions
is unanswered, error and change nothing; otherwise call `save_response`
for both answers (both calls are made unconditionally) and advance the
change index and pop the view state only when both succeeded. -/
def part2Submit (sink : Sink) (n : Nat) (bothAnswered : Bool)
    (st : Part2State) : Part2State × Nat :=
  if bothAnswered then
    let success1 := sink n
    let success2 := sink (n + 1)
    if success1 && success2 then
      ({ changeIndex := st.changeIndex + 1, viewState := none }, n + 2)
    else (st, n + 2)
  else (st, n)

/-! ## Study part 3: comparison submission -/

/-- The part-3 cursor and the current item's view state
(`view_state_p3_{comparison_id}` step, `none` once popped). -/
structure Part3State where
  comparisonIndex : Nat
  viewState : Option Nat
deriving Repr, DecidableEq

/-- The part-3 "Submit Comparison" block: when some question is
unanswered, warn and change nothing; otherwise save the four answers one
by one, breaking at the first sink failure, and advance the comparison
index and pop the view state only when all saves succeeded. -/
def part3Submit (sink : Sink) (n : Nat) (qids : List String)
    (allAnswered : Bool) (st : Part3State) :
    Part3State × List String × Nat :=
  if allAnswered then
    let r := saveLoopFrom sink n qids
    if r.2.1 then
      ({ comparisonIndex := st.comparisonIndex + 1, viewState := none },
       r.1, r.2.2)
    else (st, r.1, r.2.2)
  else (st, [], n)

/-! ## WatchedSet and per-item initial steps -/

/-- The membership test `video_id in
st.session_state.comprehension_passed_video_ids` for an item whose
`video_id` field may be absent (`sample.get('video_id')`). -/
def hasBeenWatched (watched : List String) (videoId : Option String) : Bool :=
  match videoId with
  | some v => watched.contains v
  | none => false

/-- The `.add(video_id)` performed by the "Proceed to Caption(s)" button of
the comprehension quiz — the only statement in the program that writes to
`comprehension_passed_video_ids`. -/
def addWatched (videoId : Option String) (watched : List String) : List String :=
  match videoId with
  | some v => if watched.contains v then watched else watched ++ [v]
  | none => watched

/-- Initial step of a part-1 caption view state:
`initial_step = 5 if caption_idx > 0 else 1`, overridden to 5 when the
video has already passed comprehension and this is the first caption. -/
def part1InitialStep (watched : List String) (videoId : String)
    (captionIdx : Nat) : Nat :=
  let s := if 0 < captionIdx then 5 else 1
  if watched.contains videoId && captionIdx == 0 then 5 else s

/-- Initial step of a part-2 intensity-change view state:
`initial_step = 1`, overridden to 5 when the referenced video has already
passed comprehension. -/
def part2InitialStep (watched : List String) (videoId : Option String) : Nat :=
  if hasBeenWatched watched videoId then 5 else 1

/-- Initial step of a part-3 comparison view state: `initial_step = 1`,
overridden to 5 when the referenced video has already passed
comprehension. -/
def part3InitialStep (watched : List String) (videoId : Option String) : Nat :=
  if hasBeenWatched watched videoId then 5 else 1

/-- Initial step of a quiz item view state:
`initial_step = 6 if is_second_quality_question else 1`, overridden to 5
for the hardcoded first Tone Controllability sample.  The WatchedSet is
not consulted here. -/
def quizInitialStep (isSecondQualityQuestion isPart2FirstQuestion : Bool) : Nat :=
  let s := if isSecondQualityQuestion then 6 else 1
  if isPart2FirstQuestion then 5 else s

/-- The session-mutating handlers and module-level mutation sites of the
app, one constructor per site.  Payloads irrelevant to the WatchedSet are
omitted.  The constructors cover: page navigation writes
(`st.session_state.page = ...`), the quiz navigation callbacks, the study
jump callbacks, the quiz restart, the comprehension-quiz submit and
proceed buttons, the watch-timer completions, the lazy view-state
initializations, the step-advancing buttons (Proceed to Summary / Proceed
to Question / Show Questions), the slider interaction callbacks, the four
answer-submission blocks, the demographics "Next" handler and the debug
skip. -/
inductive EngineOp where
  | setPage (page : String)
  | handleNextQuizQuestion
  | jumpToPart (i : Nat)
  | jumpToStudyPart (p : Nat)
  | jumpToStudyItem (p i : Nat)
  | restartQuizOp
  | compQuizSubmit (choice : String)
  | compQuizProceed (videoId : Option String)
  | quizTimerFinish (sampleId : String)
  | quizViewInit (sampleId : String)
  | quizStepButton (sampleId : String) (step : Nat)
  | quizAnswerSubmit (sinkOk : Bool)
  | studyTimerFinish (itemId : String)
  | studyViewInit (key : String)
  | studyStepButton (key : String) (step : Nat)
  | markInteractedOp (qid : String)
  | part1SubmitOp (sinkOk : Bool)
  | part2SubmitOp (sinkOk : Bool)
  | part3SubmitOp (sinkOk : Bool)
  | demographicsNext (email : String) (age : Nat) (gender : String)
  | debugSkipOp
deriving Repr, DecidableEq

/-- Effect of each engine operation on `comprehension_passed_video_ids`:
the comprehension-quiz "Proceed to Caption(s)" handler adds the item's
video id; no other site in the program writes to the set. -/
def opWatched : EngineOp → List String → List String
  | .compQuizProceed videoId, w => addWatched videoId w
  | _, w => w

/-- The WatchedSet after a sequence of engine operations has run against a
session whose WatchedSet is `w`. -/
def watchedAfter (ops : List EngineOp) (w : List String) : List String :=
  ops.foldl (fun acc op => opWatched op acc) w

/-! # Theorems -/

/-- C6: at the `quiz_results` page, a score exactly equal to the passing
threshold of 5 is classified as a pass (offering the transition to
`user_study_main`), a score of 4 is classified as a fail (offering the
restart), and the branch is exactly `score >= 5`. -/
theorem quiz_results_pass_boundary :
    quizPassed 5 = true ∧ quizPassed 4 = false
    ∧ quizResultsOutcome 5 = "Passed" ∧ quizResultsOutcome 4 = "Failed"
    ∧ ∀ s : Nat, quizPassed s = decide (5 ≤ s) :=
  ⟨rfl, rfl, rfl, rfl, fun _ => rfl⟩

/-- C8: the "Finish Quiz" label (rather than "Next Question") is shown if
and only if the current question is the last one: for Caption Quality
items the sub-question index, the item index and the part index must all
be at their maxima simultaneously; for other items the item index and the
part index must be at their maxima. -/
theorem finish_quiz_label_iff_all_indices_maximal
    (captionQuality : Bool)
    (partIndex numParts sampleIndex numSamples subIndex numSubs : Nat) :
    nextQuizButtonText captionQuality partIndex numParts sampleIndex numSamples subIndex numSubs
      = "Finish Quiz"
    ↔ (partIndex = numParts - 1 ∧ sampleIndex = numSamples - 1
       ∧ (captionQuality = true → subIndex = numSubs - 1)) := by
  have key : ∀ b : Bool,
      ((if b then ("Finish Quiz" : String) else "Next Question") = "Finish Quiz")
      ↔ b = true := by
    intro b
    cases b
    · exact iff_of_false (by decide) (by decide)
    · simp
  unfold nextQuizButtonText
  rw [key]
  cases captionQuality
  · simp [isLastQuestion, Bool.and_eq_true, beq_iff_eq]
  · simp [isLastQuestion, Bool.and_eq_true, beq_iff_eq, and_assoc]

/-- C9: the "DEBUG: Skip to Main Study" action on the demographics page
sets the participant to the fixed values email "debug@test.com", age 25,
gender "Prefer not to say" and transitions directly to `user_study_main`,
for every state of the demographics form — in particular irrespective of
the consent checkbox and of the email input, so the consent gate, the
field/email validation, the intro video, the tutorial pages, the quiz and
the `quiz_results` gate are all bypassed. -/
theorem debug_skip_jumps_to_main_study (s : DemographicsState) :
    (debugSkipToMainStudy s).page = "user_study_main"
    ∧ (debugSkipToMainStudy s).email = "debug@test.com"
    ∧ (debugSkipToMainStudy s).age = 25
    ∧ (debugSkipToMainStudy s).gender = "Prefer not to say"
    ∧ (debugSkipToMainStudy s).consentChecked = s.consentChecked
    ∧ (debugSkipToMainStudy s).emailInput = s.emailInput :=
  ⟨rfl, rfl, rfl, rfl, rfl, rfl⟩

/-- C7: for a multi-select quiz question, validation accepts a submission
exactly when it has 2 selections; any other count (0, 1, 3, ...) is
rejected and the submit block leaves the session state untouched, while a
2-selection submission proceeds through correctness computation and
persistence (reaching the feedback view on a healthy sink) regardless of
the answer key. -/
theorem multi_select_requires_exactly_two
    (c : List String) (a b : String) (correctAnswer : List String)
    (sinkOk : Bool) (st : QuizState) (hlen : c.length ≠ 2) :
    validQuizChoice true c = false
    ∧ (∀ d : List String, validQuizChoice true d = decide (d.length = 2))
    ∧ quizSubmit true c correctAnswer sinkOk st = st
    ∧ (quizSubmit true [a, b] correctAnswer true st).showFeedback = true := by
  have hval : ∀ d : List String, validQuizChoice true d = decide (d.length = 2) := by
    intro d
    cases d with
    | nil => rfl
    | cons x xs =>
      by_cases h : (x :: xs).length = 2
      · simp [validQuizChoice, h]
      · simp [validQuizChoice, h]
  have hc : validQuizChoice true c = false := by
    rw [hval c]; simp [hlen]
  refine ⟨hc, hval, ?_, ?_⟩
  · simp [quizSubmit, hc]
  · have h2 : validQuizChoice true [a, b] = true := by rw [hval]; rfl
    simp [quizSubmit, h2]

/-- Closed witness for the multi-select validation theorem at a concrete
1-element selection. -/
theorem multi_select_requires_exactly_two_witness :
    validQuizChoice true ["Sarcastic"] = false
    ∧ (∀ d : List String, validQuizChoice true d = decide (d.length = 2))
    ∧ quizSubmit true ["Sarcastic"] ["Sarcastic", "Angry"] true
        ⟨0, [], false, false, 0, 0, 0⟩ = ⟨0, [], false, false, 0, 0, 0⟩
    ∧ (quizSubmit true ["Sarcastic", "Angry"] ["Sarcastic", "Angry"] true
        ⟨0, [], false, false, 0, 0, 0⟩).showFeedback = true :=
  multi_select_requires_exactly_two ["Sarcastic"] "Sarcastic" "Angry"
    ["Sarcastic", "Angry"] true ⟨0, [], false, false, 0, 0, 0⟩ (by decide)

/-- C1 counterexample: a validated correct single-select quiz submission
whose persistence fails still increments the score and records the last
choice and correctness, so the session state is not left unchanged on
persistence failure. -/
theorem quiz_submit_failed_persistence_still_mutates_score :
    (quizSubmit false ["Sarcastic"] ["Sarcastic"] false
        ⟨0, [], false, false, 0, 0, 0⟩).score
      ≠ (⟨0, [], false, false, 0, 0, 0⟩ : QuizState).score
    ∧ (quizSubmit false ["Sarcastic"] ["Sarcastic"] false
        ⟨0, [], false, false, 0, 0, 0⟩).score = 1
    ∧ (quizSubmit false ["Sarcastic"] ["Sarcastic"] false
        ⟨0, [], false, false, 0, 0, 0⟩).lastChoice = ["Sarcastic"]
    ∧ (quizSubmit false ["Sarcastic"] ["Sarcastic"] false
        ⟨0, [], false, false, 0, 0, 0⟩).isCorrect = true
    ∧ (quizSubmit false ["Sarcastic"] ["Sarcastic"] false
        ⟨0, [], false, false, 0, 0, 0⟩).showFeedback = false := by
  decide

/-- C1 (amended): for every quiz answer submission, the transition to the
feedback view happens only if persistence reports success: on persistence
failure the feedback flag and all cursor indices are left unchanged
(while the score, last choice and correctness were already written before
the save was attempted), and on a sink success the submission either was
invalid (state untouched) or reaches the feedback view. -/
theorem quiz_submit_gates_feedback_on_persistence
    (isMulti : Bool) (choice correctAnswer : List String) (st : QuizState) :
    (quizSubmit isMulti choice correctAnswer false st).showFeedback = st.showFeedback
    ∧ (quizSubmit isMulti choice correctAnswer false st).currentPartIndex
        = st.currentPartIndex
    ∧ (quizSubmit isMulti choice correctAnswer false st).currentSampleIndex
        = st.currentSampleIndex
    ∧ (quizSubmit isMulti choice correctAnswer false st).currentRatingQuestionIndex
        = st.currentRatingQuestionIndex
    ∧ (quizSubmit isMulti choice correctAnswer true st = st
       ∨ (quizSubmit isMulti choice correctAnswer true st).showFeedback = true) := by
  unfold quizSubmit
  by_cases h : validQuizChoice isMulti choice = true
  · simp [h]
  · simp [h]

/-- C3 counterexample: triggering the quiz restart from a failed
`quiz_results` state resets score and cursor, but item "q1"'s
watch-timer-finished flag, summary-revealed flag and cached shuffled
comprehension options are NOT reset: they keep their pre-restart values
instead of returning to the fresh-session values (false / false / none). -/
theorem restart_quiz_keeps_per_item_view_state :
    (restart_quiz failedQuizSession).score = 0
    ∧ (restart_quiz failedQuizSession).currentPartIndex = 0
    ∧ (restart_quiz failedQuizSession).currentSampleIndex = 0
    ∧ (restart_quiz failedQuizSession).currentRatingQuestionIndex = 0
    ∧ (restart_quiz failedQuizSession).timerFinishedQuiz "q1" ≠ false
    ∧ (restart_quiz failedQuizSession).summaryTyped "q1" ≠ false
    ∧ (restart_quiz failedQuizSession).compOptions "q1" ≠ none := by
  decide

/-- C3 (amended): the quiz restart resets the score to zero, the cursor
(part index, item index, sub-question index) to zero, the feedback flag
and the score-saved flag, and returns the page to the quiz; every
per-item entry — watch-timer-finished flags, view-state steps, cached
shuffled comprehension options and summary-revealed flags — is carried
over unchanged. -/
theorem restart_quiz_resets_cursor_score_flags_only (s : QuizSession) :
    restart_quiz s =
      { page := "quiz", currentPartIndex := 0, currentSampleIndex := 0,
        currentRatingQuestionIndex := 0, showFeedback := false, score := 0,
        scoreSaved := false, timerFinishedQuiz := s.timerFinishedQuiz,
        viewStateStep := s.viewStateStep, compOptions := s.compOptions,
        summaryTyped := s.summaryTyped } := rfl

/-- C5 counterexample: with every required content file present but a
video file referenced by a study item absent, `load_data` does not fail:
it returns loaded content in which the item's metadata has been silently
defaulted to landscape / 10 s. -/
theorem load_data_succeeds_despite_missing_item_video :
    fsMissingItemVideo "media/missing_video.mp4" = false
    ∧ load_data fsMissingItemVideo (fun _ => ⟨"portrait", 7⟩)
        [⟨some "media/missing_video.mp4"⟩] []
        = some ([defaultMeta], []) := by
  decide

/-- C5 (amended): content loading fails exactly when one of the five
required JSON content files or the intro video is absent; a missing
per-item video file is not an error — the item's metadata is defaulted to
landscape / 10 s and loading proceeds. -/
theorem load_data_fails_iff_required_file_missing
    (fexists : String → Bool) (probe : String → VideoMeta)
    (studyItems quizItems : List ContentItem) (p : String)
    (hp : fexists p = false) :
    (load_data fexists probe studyItems quizItems).isSome
      = (requiredFiles.all fexists && fexists INTRO_VIDEO_PATH)
    ∧ itemMeta fexists probe ⟨some p⟩ = defaultMeta := by
  constructor
  · cases hc : (requiredFiles.all fexists && fexists INTRO_VIDEO_PATH) with
    | false => simp [load_data, hc]
    | true => simp [load_data, hc]
  · simp [itemMeta, hp]

/-- Closed witness for the amended content-loading theorem on the
filesystem missing one referenced item video. -/
theorem load_data_fails_iff_required_file_missing_witness :
    ((load_data fsMissingItemVideo (fun _ => defaultMeta)
        ([] : List ContentItem) ([] : List ContentItem)).isSome
      = (requiredFiles.all fsMissingItemVideo
         && fsMissingItemVideo INTRO_VIDEO_PATH))
    ∧ itemMeta fsMissingItemVideo (fun _ => defaultMeta)
        ⟨some "media/missing_video.mp4"⟩ = defaultMeta :=
  load_data_fails_iff_required_file_missing fsMissingItemVideo
    (fun _ => defaultMeta) [] [] "media/missing_video.mp4" (by decide)

/-- Helper: against a healthy sink the save loop emits every question, in
order, and reports success. -/
theorem saveLoopFrom_allTrue (qs : List String) :
    ∀ n : Nat, saveLoopFrom (fun _ => true) n qs = (qs, true, n + qs.length) := by
  induction qs with
  | nil => intro n; simp [saveLoopFrom]
  | cons q qs ih =>
    intro n
    simp [saveLoopFrom, ih (n + 1)]
    omega

/-- Helper: when the sink succeeds on its first `j` calls and fails on the
next one, the save loop emits exactly the first `j + 1` questions (the
failing call included) and reports failure. -/
theorem saveLoopFrom_firstFail (sink : Sink) :
    ∀ (j n : Nat) (qs : List String), j < qs.length →
      (∀ i, i < j → sink (n + i) = true) → sink (n + j) = false →
      saveLoopFrom sink n qs = (qs.take (j + 1), false, n + j + 1) := by
  intro j
  induction j with
  | zero =>
    intro n qs hlen hpre hfail
    cases qs with
    | nil => simp at hlen
    | cons q qs' =>
      have h0 : sink n = false := by simpa using hfail
      simp [saveLoopFrom, h0]
  | succ j ih =>
    intro n qs hlen hpre hfail
    cases qs with
    | nil => simp at hlen
    | cons q qs' =>
      have h0 : sink n = true := by simpa using hpre 0 (Nat.succ_pos j)
      have hpre' : ∀ i, i < j → sink (n + 1 + i) = true := by
        intro i hi
        have h2 : n + 1 + i = n + (i + 1) := by omega
        rw [h2]
        exact hpre (i + 1) (Nat.succ_lt_succ hi)
      have hfail' : sink (n + 1 + j) = false := by
        have h2 : n + 1 + j = n + (j + 1) := by omega
        rw [h2]; exact hfail
      have hr := ih (n + 1) qs' (Nat.lt_of_succ_lt_succ (by simpa using hlen))
        hpre' hfail'
      simp [saveLoopFrom, h0, hr, List.take_succ_cons]
      omega

/-- C2: for every study-phase rating submission with valid input, a sink
failure leaves the item cursor and the item's view-state step unchanged
(parts 1, 2 and 3), and a retried submission with valid input against a
healthy sink advances the cursor by exactly one item — one caption within
the video for part 1, rolling to the next video when its captions are
exhausted — discarding the item's view state. -/
theorem study_submit_gated_on_persistence
    (sink : Sink) (n : Nat) (qids : List String) (numCaptions : Nat)
    (st1 : Part1State) (st2 : Part2State) (st3 : Part3State)
    (hfail1 : (saveLoopFrom sink n qids).2.1 = false)
    (hfail2 : (sink n && sink (n + 1)) = false) :
    (part1Submit sink n qids numCaptions true st1).1 = st1
    ∧ (part2Submit sink n true st2).1 = st2
    ∧ (part3Submit sink n qids true st3).1 = st3
    ∧ (part1Submit (fun _ => true) n qids numCaptions true st1).1
        = (if numCaptions ≤ st1.captionIndex + 1 then
             ⟨st1.videoIndex + 1, 0, none⟩
           else ⟨st1.videoIndex, st1.captionIndex + 1, none⟩)
    ∧ (part2Submit (fun _ => true) n true st2).1 = ⟨st2.changeIndex + 1, none⟩
    ∧ (part3Submit (fun _ => true) n qids true st3).1
        = ⟨st3.comparisonIndex + 1, none⟩ := by
  refine ⟨?_, ?_, ?_, ?_, ?_, ?_⟩
  · simp [part1Submit, hfail1]
  · simp [part2Submit, hfail2]
  · simp [part3Submit, hfail1]
  · simp only [part1Submit, saveLoopFrom_allTrue, if_true]
  · simp [part2Submit]
  · simp [part3Submit, saveLoopFrom_allTrue]

/-- Closed witness for the persistence-gating theorem: a sink that always
fails leaves the part-1 and part-2 cursors untouched. -/
theorem study_submit_gated_on_persistence_witness :
    (part1Submit (fun _ => false) 0
        ["tone_relevance", "style_relevance", "factual_consistency",
         "usefulness", "human_likeness"] 2 true ⟨0, 0, some 11⟩).1
      = ⟨0, 0, some 11⟩
    ∧ (part2Submit (fun _ => false) 0 true ⟨0, some 6⟩).1 = ⟨0, some 6⟩
    ∧ (part3Submit (fun _ => false) 0
        ["q1_tone", "q2_style", "q3_factual", "q4_overall"] true
        ⟨0, some 6⟩).1 = ⟨0, some 6⟩ := by
  have h := study_submit_gated_on_persistence (fun _ => false) 0
    ["tone_relevance", "style_relevance", "factual_consistency",
     "usefulness", "human_likeness"] 2 ⟨0, 0, some 11⟩ ⟨0, some 6⟩ ⟨0, some 6⟩
    (by decide) (by decide)
  have h3 := study_submit_gated_on_persistence (fun _ => false) 0
    ["q1_tone", "q2_style", "q3_factual", "q4_overall"] 2
    ⟨0, 0, some 11⟩ ⟨0, some 6⟩ ⟨0, some 6⟩ (by decide) (by decide)
  exact ⟨h.1, h.2.1, h3.2.2.1⟩

/-- C10: a part-1 rating submission emits one response event per rating
question in order and stops at the first sink failure: when the sink
accepts the first `j` events of the submission and rejects the next one,
the submission emits exactly the first `j + 1` question events and leaves
the cursor and view state unchanged; nothing removes the already-sent
events from the sink, and a retried submission against a healthy sink
re-sends all questions from the start, so every question emitted in the
failed attempt reaches the sink at least twice across the two attempts
while the cursor advances only once. -/
theorem part1_retry_resends_saved_events
    (sink : Sink) (n j : Nat) (qids : List String) (numCaptions : Nat)
    (st : Part1State)
    (hj : j < qids.length)
    (hpre : ∀ i, i < j → sink (n + i) = true)
    (hfail : sink (n + j) = false) :
    (part1Submit sink n qids numCaptions true st).1 = st
    ∧ (part1Submit sink n qids numCaptions true st).2.1 = qids.take (j + 1)
    ∧ (part1Submit (fun _ => true)
        (part1Submit sink n qids numCaptions true st).2.2
        qids numCaptions true st).2.1 = qids
    ∧ (part1Submit (fun _ => true)
        (part1Submit sink n qids numCaptions true st).2.2
        qids numCaptions true st).1
        = (if numCaptions ≤ st.captionIndex + 1 then
             ⟨st.videoIndex + 1, 0, none⟩
           else ⟨st.videoIndex, st.captionIndex + 1, none⟩)
    ∧ ∀ q ∈ qids.take (j + 1),
        2 ≤ ((part1Submit sink n qids numCaptions true st).2.1
              ++ (part1Submit (fun _ => true)
                    (part1Submit sink n qids numCaptions true st).2.2
                    qids numCaptions true st).2.1).count q := by
  have hloop := saveLoopFrom_firstFail sink j n qids hj hpre hfail
  have h1 : part1Submit sink n qids numCaptions true st
      = (st, qids.take (j + 1), n + j + 1) := by
    simp [part1Submit, hloop]
  have h2 : ∀ m, part1Submit (fun _ => true) m qids numCaptions true st
      = ((if numCaptions ≤ st.captionIndex + 1 then
            ⟨st.videoIndex + 1, 0, none⟩
          else ⟨st.videoIndex, st.captionIndex + 1, none⟩),
         qids, m + qids.length) := by
    intro m
    simp only [part1Submit, saveLoopFrom_allTrue, if_true]
  refine ⟨by rw [h1], by rw [h1], by simp [h1, h2], by simp [h1, h2], ?_⟩
  intro q hq
  have hmem : q ∈ qids := List.mem_of_mem_take hq
  have e1 : (part1Submit sink n qids numCaptions true st).2.1
      = qids.take (j + 1) := by rw [h1]
  have e2 : (part1Submit (fun _ => true)
      (part1Submit sink n qids numCaptions true st).2.2
      qids numCaptions true st).2.1 = qids := by simp [h1, h2]
  rw [e1, e2, List.count_append]
  have c1 : 0 < (qids.take (j + 1)).count q := List.count_pos_iff.mpr hq
  have c2 : 0 < qids.count q := List.count_pos_iff.mpr hmem
  omega

/-- Closed witness for the retry/duplication theorem: the five part-1
rating questions, a sink that rejects exactly its third call, a retry
against a healthy sink.  The failed attempt sends three events and leaves
the cursor alone; the retry re-sends all five, duplicates the first three
at the sink, and advances the caption cursor once. -/
theorem part1_retry_resends_saved_events_witness :
    (part1Submit (fun m => !(m == 2)) 0
        ["tone_relevance", "style_relevance", "factual_consistency",
         "usefulness", "human_likeness"] 2 true ⟨0, 0, some 11⟩).1
      = ⟨0, 0, some 11⟩
    ∧ (part1Submit (fun m => !(m == 2)) 0
        ["tone_relevance", "style_relevance", "factual_consistency",
         "usefulness", "human_likeness"] 2 true ⟨0, 0, some 11⟩).2.1
      = ["tone_relevance", "style_relevance", "factual_consistency"]
    ∧ (part1Submit (fun _ => true)
        (part1Submit (fun m => !(m == 2)) 0
          ["tone_relevance", "style_relevance", "factual_consistency",
           "usefulness", "human_likeness"] 2 true ⟨0, 0, some 11⟩).2.2
        ["tone_relevance", "style_relevance", "factual_consistency",
         "usefulness", "human_likeness"] 2 true ⟨0, 0, some 11⟩).2.1
      = ["tone_relevance", "style_relevance", "factual_consistency",
         "usefulness", "human_likeness"]
    ∧ (part1Submit (fun _ => true)
        (part1Submit (fun m => !(m == 2)) 0
          ["tone_relevance", "style_relevance", "factual_consistency",
           "usefulness", "human_likeness"] 2 true ⟨0, 0, some 11⟩).2.2
        ["tone_relevance", "style_relevance", "factual_consistency",
         "usefulness", "human_likeness"] 2 true ⟨0, 0, some 11⟩).1
      = (if 2 ≤ (⟨0, 0, some 11⟩ : Part1State).captionIndex + 1 then
           (⟨1, 0, none⟩ : Part1State)
         else ⟨0, 1, none⟩)
    ∧ 2 ≤ ((part1Submit (fun m => !(m == 2)) 0
              ["tone_relevance", "style_relevance", "factual_consistency",
               "usefulness", "human_likeness"] 2 true ⟨0, 0, some 11⟩).2.1
            ++ (part1Submit (fun _ => true)
                  (part1Submit (fun m => !(m == 2)) 0
                    ["tone_relevance", "style_relevance", "factual_consistency",
                     "usefulness", "human_likeness"] 2 true ⟨0, 0, some 11⟩).2.2
                  ["tone_relevance", "style_relevance", "factual_consistency",
                   "usefulness", "human_likeness"] 2 true
                  ⟨0, 0, some 11⟩).2.1).count "tone_relevance" := by
  have h := part1_retry_resends_saved_events (fun m => !(m == 2)) 0 2
    ["tone_relevance", "style_relevance", "factual_consistency",
     "usefulness", "human_likeness"] 2 ⟨0, 0, some 11⟩
    (by decide) (by decide) (by decide)
  exact ⟨h.1, h.2.1, h.2.2.1, h.2.2.2.1,
         h.2.2.2.2 "tone_relevance" (by decide)⟩

/-- Helper: no single engine operation removes an element from the
WatchedSet. -/
theorem opWatched_monotone (op : EngineOp) (w : List String) (v : String)
    (hv : v ∈ w) : v ∈ opWatched op w := by
  cases op with
  | compQuizProceed videoId =>
    cases videoId with
    | none => exact hv
    | some u =>
      simp only [opWatched, addWatched]
      split
      · exact hv
      · exact List.mem_append_left _ hv
  | setPage _ => exact hv
  | handleNextQuizQuestion => exact hv
  | jumpToPart _ => exact hv
  | jumpToStudyPart _ => exact hv
  | jumpToStudyItem _ _ => exact hv
  | restartQuizOp => exact hv
  | compQuizSubmit _ => exact hv
  | quizTimerFinish _ => exact hv
  | quizViewInit _ => exact hv
  | quizStepButton _ _ => exact hv
  | quizAnswerSubmit _ => exact hv
  | studyTimerFinish _ => exact hv
  | studyViewInit _ => exact hv
  | studyStepButton _ _ => exact hv
  | markInteractedOp _ => exact hv
  | part1SubmitOp _ => exact hv
  | part2SubmitOp _ => exact hv
  | part3SubmitOp _ => exact hv
  | demographicsNext _ _ _ => exact hv
  | debugSkipOp => exact hv

/-- C4 counterexample: the WatchedSet is not consulted when a quiz item's
view state is initialized.  With the media id "v1" already in the
WatchedSet, a quiz item referencing "v1" (that is neither a second
Caption Quality sub-question nor the hardcoded first Tone Controllability
sample) still enters at step 1, not at step 5 or higher. -/
theorem quiz_item_ignores_watched_set :
    (["v1"].contains "v1") = true
    ∧ quizInitialStep false false = 1
    ∧ ¬ 5 ≤ quizInitialStep false false := by
  decide

/-- C4 (amended): once a media id is added to the WatchedSet it is never
removed for the rest of the session (every engine operation preserves
membership), and every STUDY item (part-1 rating, part-2 intensity
change, part-3 comparison) visited thereafter that references that media
id enters at step 5 or higher, skipping the gate, summary-reveal and
comprehension steps; quiz items do not consult the WatchedSet. -/
theorem watched_set_monotone_and_study_items_skip
    (ops : List EngineOp) (w : List String) (v : String) (hv : v ∈ w)
    (watched : List String) (vid : String) (captionIdx : Nat)
    (hvid : watched.contains vid = true) :
    v ∈ watchedAfter ops w
    ∧ 5 ≤ part1InitialStep watched vid captionIdx
    ∧ part2InitialStep watched (some vid) = 5
    ∧ part3InitialStep watched (some vid) = 5 := by
  have hmem : vid ∈ watched := by simpa using hvid
  refine ⟨?_, ?_, ?_, ?_⟩
  · induction ops generalizing w with
    | nil => exact hv
    | cons op ops ih =>
      exact ih (opWatched op w) (opWatched_monotone op w v hv)
  · unfold part1InitialStep
    cases captionIdx with
    | zero => simp [hvid, hmem]
    | succ k => simp [hvid, hmem]
  · simp [part2InitialStep, hasBeenWatched, hvid, hmem]
  · simp [part3InitialStep, hasBeenWatched, hvid, hmem]

/-- Closed witness for the WatchedSet theorem: media id "v1" survives a
quiz restart, a comprehension pass of another video, a page change and a
part-1 submission, and items of all three study parts referencing "v1"
enter at step 5. -/
theorem watched_set_monotone_and_study_items_skip_witness :
    ("v1" ∈ watchedAfter
        [EngineOp.restartQuizOp, EngineOp.compQuizProceed (some "v2"),
         EngineOp.setPage "user_study_main", EngineOp.part1SubmitOp false]
        ["v1"])
    ∧ 5 ≤ part1InitialStep ["v1"] "v1" 0
    ∧ part2InitialStep ["v1"] (some "v1") = 5
    ∧ part3InitialStep ["v1"] (some "v1") = 5 :=
  watched_set_monotone_and_study_items_skip
    [EngineOp.restartQuizOp, EngineOp.compQuizProceed (some "v2"),
     EngineOp.setPage "user_study_main", EngineOp.part1SubmitOp false]
    ["v1"] "v1" (by decide) ["v1"] "v1" 0 (by decide)
